import Mathlib

/-!
Shallow embedding of the ProjectHub authentication subsystem
(`lib/auth.ts`, `lib/supabaseClient.ts`) and of the API route handlers
under `app/api/` (projects list/create, project-by-id get/update/delete,
login, whoami), together with symbolic models of the external
`jsonwebtoken` and `bcryptjs` libraries and of JavaScript string-to-number
conversion.  The theorems at the end settle the specified properties of
the subsystem.
-/

/-! ## Identity claims and tokens (model of the `jsonwebtoken` library)

A token is modelled symbolically: a well-formed signed token carries its
payload, issued-at and expiration timestamps (in seconds) and the secret
it was signed with; every other string is `malformed`.  `jwt.verify`
accepts a signed token exactly when the signature secret matches and the
current time is strictly before the expiration, and throws (modelled as
`Except.error`) otherwise. -/

/-- The `JWTPayload` interface of `lib/auth.ts`: `{ userId: number; email: string }`. -/
structure JWTPayload where
  userId : Nat
  email : String
deriving DecidableEq, Repr

/-- Symbolic token space: a correctly signed compact token, or any other
(structurally malformed) string. -/
inductive Token where
  | signed (payload : JWTPayload) (iat : Nat) (exp : Nat) (secret : String)
  | malformed (raw : String)
deriving DecidableEq, Repr

/-- `expiresIn: '7d'` in seconds. -/
def sevenDaysSeconds : Nat := 7 * 24 * 60 * 60

/-- Model of `jwt.sign(payload, secret, { expiresIn: '7d' })` at time `now`:
sets `iat = now` and `exp = now + 7 days`. -/
def jwtSign (payload : JWTPayload) (secret : String) (now : Nat) : Token :=
  Token.signed payload now (now + sevenDaysSeconds) secret

/-- Model of `jwt.verify(token, secret)` at time `now`: throws on a
malformed token, a signature made with a different secret, or an
expired token (`now ≥ exp`); otherwise returns the embedded payload. -/
def jwtVerify (t : Token) (secret : String) (now : Nat) : Except String JWTPayload :=
  match t with
  | Token.malformed _ => Except.error "jwt malformed"
  | Token.signed p _ e s =>
    if s ≠ secret then Except.error "invalid signature"
    else if e ≤ now then Except.error "jwt expired"
    else Except.ok p

/-! ## Password hashing (model of the `bcryptjs` library)

The bcrypt digest function itself is an external primitive, modelled as a
parameter `BcryptPrim` (a function of plaintext, salt and cost).  A stored
hash string is modelled structurally as the `(cost, salt, digest)` triple
that the encoded `$2b$...` string carries.  `bcrypt.hash(p, 10)` draws a
fresh random salt; the randomness source is modelled as a stream of salts
threaded through `SaltM`.  `bcrypt.compare` recomputes the digest with the
salt and cost embedded in the stored hash and compares. -/

/-- External bcrypt digest primitive: plaintext → salt → cost → digest. -/
structure BcryptPrim where
  digest : String → String → Nat → String

/-- The contents of a bcrypt hash string: algorithm cost, embedded salt,
and digest. -/
structure BcryptHash where
  cost : Nat
  salt : String
  digest : String
deriving DecidableEq, Repr

/-- Computations that may draw fresh random salts, modelled by threading
the stream of salts the process RNG will produce. -/
def SaltM (α : Type) : Type := List String → α × List String

/-- `hashPassword(password)` from `lib/auth.ts`: `bcrypt.hash(password, 10)`
with a fixed cost factor of 10 and a freshly drawn salt. -/
def hashPassword (prim : BcryptPrim) (password : String) : SaltM BcryptHash :=
  fun salts =>
    match salts with
    | [] => (⟨10, "", prim.digest password "" 10⟩, [])
    | s :: rest => (⟨10, s, prim.digest password s 10⟩, rest)

/-- `verifyPassword(password, hash)` from `lib/auth.ts`:
`bcrypt.compare(password, hash)` — recompute the digest with the salt and
cost stored in the hash and compare. -/
def verifyPassword (prim : BcryptPrim) (password : String) (h : BcryptHash) : Bool :=
  prim.digest password h.salt h.cost == h.digest

/-! ## Secret configuration (`lib/auth.ts` module top level) -/

/-- The hardcoded development fallback secret from `lib/auth.ts`. -/
def fallbackSecret : String := "your-super-secret-jwt-key-change-in-production"

/-- `const JWT_SECRET = process.env.JWT_SECRET || '...fallback...'`.
The environment value is `Option String`; JavaScript `||` also falls
back on the empty string. -/
def JWT_SECRET (env : Option String) : String :=
  match env with
  | none => fallbackSecret
  | some s => if s = "" then fallbackSecret else s

/-! ## Token codec (`generateToken` / `verifyToken` from `lib/auth.ts`) -/

/-- `generateToken(payload)`: `jwt.sign(payload, JWT_SECRET, { expiresIn: '7d' })`. -/
def generateToken (env : Option String) (payload : JWTPayload) (now : Nat) : Token :=
  jwtSign payload (JWT_SECRET env) now

/-- `verifyToken(token)`: `try { return jwt.verify(token, JWT_SECRET) } catch { return null }`. -/
def verifyToken (env : Option String) (t : Token) (now : Nat) : Option JWTPayload :=
  match jwtVerify t (JWT_SECRET env) now with
  | Except.ok p => some p
  | Except.error _ => none

/-! ## Requests and the request authenticator -/

/-- An incoming HTTP request, as far as this subsystem reads it: its
cookie store (name/value pairs). -/
structure Request where
  cookies : List (String × Token)
deriving DecidableEq

/-- `request.cookies.get(name)?.value`. -/
def cookieGet (req : Request) (name : String) : Option Token :=
  (req.cookies.find? (fun c => c.1 == name)).map (fun c => c.2)

/-- `getCurrentUser(request)` from `lib/auth.ts`: read the `token` cookie;
absent → null; otherwise `verifyToken`. -/
def getCurrentUser (env : Option String) (req : Request) (now : Nat) : Option JWTPayload :=
  match cookieGet req "token" with
  | none => none
  | some t => verifyToken env t now

/-- `requireAuth(request)` from `lib/auth.ts`: returns the claim, or
throws `Error('Unauthorized')` (modelled as `Except.error`). -/
def requireAuth (env : Option String) (req : Request) (now : Nat) : Except String JWTPayload :=
  match getCurrentUser env req now with
  | some u => Except.ok u
  | none => Except.error "Unauthorized"

/-! ## JavaScript `Number(string)` conversion

The `[id]` route does `const id = Number(params.id)` and rejects with 400
when `Number.isNaN(id)`.  The model below follows the ECMAScript
string-to-number rules: surrounding whitespace is trimmed; the empty
string is 0; an optional sign applies to a decimal literal or `Infinity`;
unsigned hex/octal/binary literals are accepted; anything else is NaN. -/

/-- JavaScript number resulting from `Number(string)`. -/
inductive JsNum where
  | nan
  | posInf
  | negInf
  | num (q : ℚ)
deriving DecidableEq, Repr

/-- Whitespace trimmed by `Number`. -/
def jsIsWs (c : Char) : Bool :=
  c == ' ' || c == '\t' || c == '\n' || c == '\r'

/-- Value of a nonempty run of decimal digit characters. -/
def digitsVal (l : List Char) : Nat :=
  l.foldl (fun a c => a * 10 + (c.toNat - 48)) 0

def allDigits (l : List Char) : Bool :=
  l.all (fun c => c.isDigit)

/-- Parse the exponent part after `e`/`E`: optional sign then digits. -/
def parseExpPart (l : List Char) : Option Int :=
  match l with
  | [] => none
  | '+' :: rest =>
    if rest.isEmpty || !allDigits rest then none else some (digitsVal rest : Int)
  | '-' :: rest =>
    if rest.isEmpty || !allDigits rest then none else some (-(digitsVal rest : Int))
  | _ =>
    if allDigits l then some (digitsVal l : Int) else none

/-- Parse a decimal mantissa `digits`, `digits.digits`, `digits.` or `.digits`. -/
def parseMantissa (l : List Char) : Option ℚ :=
  let ip := l.takeWhile (fun c => c.isDigit)
  let rest := l.dropWhile (fun c => c.isDigit)
  match rest with
  | [] => if ip.isEmpty then none else some (digitsVal ip : ℚ)
  | '.' :: frac =>
    if allDigits frac && !(ip.isEmpty && frac.isEmpty) then
      some ((digitsVal ip : ℚ) + (digitsVal frac : ℚ) / ((10 : ℚ) ^ frac.length))
    else none
  | _ => none

/-- Parse an unsigned decimal literal with optional exponent. -/
def parseDecLit (l : List Char) : Option ℚ :=
  match (l.map Char.toLower).findIdx? (fun c => c == 'e') with
  | none => parseMantissa l
  | some i =>
    match parseMantissa (l.take i), parseExpPart ((l.drop (i + 1)).map Char.toLower) with
    | some m, some e => some (m * (10 : ℚ) ^ e)
    | _, _ => none

def hexDigitVal (c : Char) : Option Nat :=
  if c.isDigit then some (c.toNat - 48)
  else if 'a' ≤ c.toLower && c.toLower ≤ 'f' then some (c.toLower.toNat - 87)
  else none

/-- Parse a nonempty radix literal body with the given per-digit reader. -/
def parseRadixLit (base : Nat) (digit : Char → Option Nat) (l : List Char) : Option ℚ :=
  if l.isEmpty then none
  else
    (l.foldl (fun acc c =>
      match acc, digit c with
      | some a, some d => if d < base then some (a * base + d) else none
      | _, _ => none) (some 0)).map (fun n => (n : ℚ))

def binDigitVal (c : Char) : Option Nat :=
  if c == '0' then some 0 else if c == '1' then some 1 else none

def octDigitVal (c : Char) : Option Nat :=
  if c.isDigit && c.toNat - 48 < 8 then some (c.toNat - 48) else none

/-- Unsigned numeric literal: `Infinity`, a `0x`/`0o`/`0b` radix literal,
or a decimal literal. -/
def jsNumUnsigned (l : List Char) : JsNum :=
  if l == "Infinity".toList then JsNum.posInf
  else
    match l with
    | '0' :: 'x' :: rest => ((parseRadixLit 16 hexDigitVal rest).map JsNum.num).getD JsNum.nan
    | '0' :: 'X' :: rest => ((parseRadixLit 16 hexDigitVal rest).map JsNum.num).getD JsNum.nan
    | '0' :: 'o' :: rest => ((parseRadixLit 8 octDigitVal rest).map JsNum.num).getD JsNum.nan
    | '0' :: 'O' :: rest => ((parseRadixLit 8 octDigitVal rest).map JsNum.num).getD JsNum.nan
    | '0' :: 'b' :: rest => ((parseRadixLit 2 binDigitVal rest).map JsNum.num).getD JsNum.nan
    | '0' :: 'B' :: rest => ((parseRadixLit 2 binDigitVal rest).map JsNum.num).getD JsNum.nan
    | _ => ((parseDecLit l).map JsNum.num).getD JsNum.nan

/-- A signed tail (after `+`/`-`): only `Infinity` or a decimal literal. -/
def jsNumSignedTail (l : List Char) : JsNum :=
  if l == "Infinity".toList then JsNum.posInf
  else ((parseDecLit l).map JsNum.num).getD JsNum.nan

def jsNumNegate (n : JsNum) : JsNum :=
  match n with
  | JsNum.nan => JsNum.nan
  | JsNum.posInf => JsNum.negInf
  | JsNum.negInf => JsNum.posInf
  | JsNum.num q => JsNum.num (-q)

/-- Model of `Number(s)` for a string argument. -/
def jsNumber (s : String) : JsNum :=
  let l := ((s.toList.dropWhile jsIsWs).reverse.dropWhile jsIsWs).reverse
  match l with
  | [] => JsNum.num 0
  | '+' :: rest => jsNumSignedTail rest
  | '-' :: rest => jsNumNegate (jsNumSignedTail rest)
  | _ => jsNumUnsigned l


/-! ## Datastore rows (the external Supabase collaborator)

The hosted relational store is modelled as in-memory lists of rows.
Nullable columns are `Option`s.  Every datastore read or write a handler
performs is recorded as a `DbEvent` in the handler's trace. -/

/-- A row of the `projects` table. -/
structure Project where
  id : ℚ
  title : Option String
  status : Option String
  deadline : Option String
  assigned_to : Option String
  budget : Option ℚ
  description : Option String
  created_at : Nat
  updated_at : Nat
deriving DecidableEq, Repr

/-- A row of the `users` table (as selected by the login handler). -/
structure UserRow where
  id : Nat
  email : String
  name : String
  password_hash : BcryptHash
deriving DecidableEq, Repr

/-- A datastore access performed by a handler. -/
inductive DbEvent where
  | read (table : String)
  | write (table : String)
deriving DecidableEq, Repr

/-! ## HTTP responses -/

/-- The `formatProject` output shape: `budget` forced to a number
(`Number(null)` is `0`), all other columns passed through. -/
structure FormattedProject where
  id : ℚ
  title : Option String
  status : Option String
  deadline : Option String
  assigned_to : Option String
  budget : ℚ
  description : Option String
  created_at : Nat
  updated_at : Nat
deriving DecidableEq, Repr

/-- `formatProject(project)` from the route files: passes fields through
and converts `budget` with `Number(project.budget)` (`null` becomes 0). -/
def formatProject (p : Project) : FormattedProject :=
  { id := p.id
    title := p.title
    status := p.status
    deadline := p.deadline
    assigned_to := p.assigned_to
    budget := match p.budget with
      | some b => b
      | none => 0
    description := p.description
    created_at := p.created_at
    updated_at := p.updated_at }

/-- JSON bodies the handlers produce.  `invalidInput` stands for the
`{ error: 'Invalid input', details: ... }` body on a Zod parse failure
(the `details` array is elided). -/
inductive RespBody where
  | err (msg : String)
  | invalidInput
  | projectList (ps : List FormattedProject)
  | projectOne (p : FormattedProject)
  | loginOk (id : Nat) (email : String) (name : String) (tok : Token)
  | userClaim (u : JWTPayload)
  | message (m : String)
deriving DecidableEq

/-- A client-visible HTTP response: status, JSON body, and the cookie
set by `response.cookies.set`, when any. -/
structure Response where
  status : Nat
  body : RespBody
  cookie : Option (String × Token)
deriving DecidableEq

/-- `NextResponse.json({ error: m }, { status: st })`. -/
def jsonErr (st : Nat) (m : String) : Response :=
  ⟨st, RespBody.err m, none⟩

/-- The shared catch clause of the project handlers: an error whose
message is `'Unauthorized'` becomes a 401, anything else a 500. -/
def authCatch (m : String) : Response :=
  if m == "Unauthorized" then jsonErr 401 "Unauthorized"
  else jsonErr 500 "Internal server error"

/-! ## Project route handlers (`app/api/projects/route.ts`)

Request bodies are given to the handlers already passed through the Zod
schema: `none` stands for an unparseable body or a schema violation
(which the handlers answer with 400 `Invalid input`), `some input` for a
successful `projectSchema.parse`.  Rows generated by the store (fresh id,
`NOW()` timestamps) are passed in as parameters. -/

/-- The parsed `projectSchema` body: every field optional. -/
structure ProjectInput where
  title : Option String
  status : Option String
  deadline : Option String
  assigned_to : Option String
  budget : Option ℚ
  description : Option String
deriving DecidableEq, Repr

/-- Case-insensitive substring test, modelling SQL `ILIKE '%pat%'`. -/
def containsIgnoreCase (hay pat : String) : Bool :=
  (hay.toLower.toList.tails).any (fun t => pat.toLower.toList.isPrefixOf t)

/-- The `.or(title.ilike... , assigned_to.ilike... , description.ilike...)`
search filter; a NULL column never matches (the search string is nonempty
when the filter is active). -/
def matchesSearch (s : String) (p : Project) : Bool :=
  (match p.title with
    | some t => containsIgnoreCase t s
    | none => false) ||
  (match p.assigned_to with
    | some a => containsIgnoreCase a s
    | none => false) ||
  (match p.description with
    | some d => containsIgnoreCase d s
    | none => false)

/-- Insert into a list sorted by `created_at` descending. -/
def insertByCreatedDesc (p : Project) : List Project → List Project
  | [] => [p]
  | q :: rest =>
    if p.created_at ≤ q.created_at then q :: insertByCreatedDesc p rest
    else p :: q :: rest

/-- `.order('created_at', { ascending: false })`. -/
def sortByCreatedDesc (l : List Project) : List Project :=
  l.foldr insertByCreatedDesc []

/-- `GET /api/projects`: auth gate, then one filtered/sorted read of the
`projects` table.  `qStatus`/`qSearch` are the query parameters; a missing
or empty parameter (falsy in JavaScript) disables its filter. -/
def projectsGET (env : Option String) (req : Request) (now : Nat)
    (qStatus qSearch : Option String) (db : List Project) :
    Response × List DbEvent :=
  match requireAuth env req now with
  | Except.error m => (authCatch m, [])
  | Except.ok _ =>
    let afterStatus := match qStatus with
      | some st => if st == "" then db else db.filter (fun p => p.status == some st)
      | none => db
    let afterSearch := match qSearch with
      | some s => if s == "" then afterStatus else afterStatus.filter (matchesSearch s)
      | none => afterStatus
    (⟨200, RespBody.projectList ((sortByCreatedDesc afterSearch).map formatProject), none⟩,
     [DbEvent.read "projects"])

/-- `POST /api/projects`: auth gate, body parse, then one insert.
`newId` and `ts` stand for the store-generated id and `NOW()` timestamp
of the inserted row.  `description: data.description || null` turns an
empty string into NULL. -/
def projectsPOST (env : Option String) (req : Request) (now : Nat)
    (body : Option ProjectInput) (newId : ℚ) (ts : Nat) :
    Response × List DbEvent :=
  match requireAuth env req now with
  | Except.error m => (authCatch m, [])
  | Except.ok _ =>
    match body with
    | none => (⟨400, RespBody.invalidInput, none⟩, [])
    | some data =>
      let inserted : Project :=
        { id := newId
          title := data.title
          status := data.status
          deadline := data.deadline
          assigned_to := data.assigned_to
          budget := data.budget
          description := match data.description with
            | some d => if d == "" then none else some d
            | none => none
          created_at := ts
          updated_at := ts }
      (⟨201, RespBody.projectOne (formatProject inserted), none⟩,
       [DbEvent.write "projects"])

/-! ## Project-by-id route handlers (`app/api/projects/[id]/route.ts`) -/

/-- `.eq('id', id)` with the converted numeric id. -/
def matchIdNum (n : JsNum) (p : Project) : Bool :=
  match n with
  | JsNum.num q => decide (q = p.id)
  | _ => false

/-- `GET /api/projects/[id]`: auth gate, `Number(params.id)` NaN check,
then one read; `.single()` with no row is PGRST116, answered with 404. -/
def projectIdGET (env : Option String) (req : Request) (now : Nat)
    (idStr : String) (db : List Project) : Response × List DbEvent :=
  match requireAuth env req now with
  | Except.error m => (authCatch m, [])
  | Except.ok _ =>
    match jsNumber idStr with
    | JsNum.nan => (jsonErr 400 "Invalid project id", [])
    | n =>
      match db.find? (matchIdNum n) with
      | none => (jsonErr 404 "Project not found", [DbEvent.read "projects"])
      | some p => (⟨200, RespBody.projectOne (formatProject p), none⟩,
                   [DbEvent.read "projects"])

/-- `Object.keys(updateData).length === 0`: no field was provided. -/
def emptyUpdate (d : ProjectInput) : Bool :=
  d.title.isNone && d.status.isNone && d.deadline.isNone &&
  d.assigned_to.isNone && d.budget.isNone && d.description.isNone

/-- Apply the partial update: each provided field overwrites the row
(the `updated_at` column has no trigger and is left unchanged). -/
def applyUpdate (p : Project) (d : ProjectInput) : Project :=
  { id := p.id
    title := match d.title with
      | some t => some t
      | none => p.title
    status := match d.status with
      | some s => some s
      | none => p.status
    deadline := match d.deadline with
      | some s => some s
      | none => p.deadline
    assigned_to := match d.assigned_to with
      | some s => some s
      | none => p.assigned_to
    budget := match d.budget with
      | some b => some b
      | none => p.budget
    description := match d.description with
      | some s => some s
      | none => p.description
    created_at := p.created_at
    updated_at := p.updated_at }

/-- `PUT /api/projects/[id]`: auth gate, NaN check, body parse,
empty-update check, then one update; `.single()` with no row updated is
PGRST116, answered with 404 (the update was still attempted, so the
write event is recorded). -/
def projectIdPUT (env : Option String) (req : Request) (now : Nat)
    (idStr : String) (body : Option ProjectInput) (db : List Project) :
    Response × List DbEvent :=
  match requireAuth env req now with
  | Except.error m => (authCatch m, [])
  | Except.ok _ =>
    match jsNumber idStr with
    | JsNum.nan => (jsonErr 400 "Invalid project id", [])
    | n =>
      match body with
      | none => (⟨400, RespBody.invalidInput, none⟩, [])
      | some data =>
        if emptyUpdate data then (jsonErr 400 "No fields to update", [])
        else
          match db.find? (matchIdNum n) with
          | none => (jsonErr 404 "Project not found", [DbEvent.write "projects"])
          | some p => (⟨200, RespBody.projectOne (formatProject (applyUpdate p data)), none⟩,
                       [DbEvent.write "projects"])

/-- `DELETE /api/projects/[id]`: auth gate, NaN check, then one delete;
`.maybeSingle()` returning no row is answered with 404 (the delete was
still attempted, so the write event is recorded). -/
def projectIdDELETE (env : Option String) (req : Request) (now : Nat)
    (idStr : String) (db : List Project) : Response × List DbEvent :=
  match requireAuth env req now with
  | Except.error m => (authCatch m, [])
  | Except.ok _ =>
    match jsNumber idStr with
    | JsNum.nan => (jsonErr 400 "Invalid project id", [])
    | n =>
      match db.find? (matchIdNum n) with
      | none => (jsonErr 404 "Project not found", [DbEvent.write "projects"])
      | some _ => (⟨200, RespBody.message "Project deleted successfully", none⟩,
                   [DbEvent.write "projects"])

/-! ## Whoami handler (`app/api/auth/me/route.ts`) -/

/-- `GET /api/auth/me`: `getCurrentUser`, 401 on null, 200 with the claim
otherwise; performs no datastore access at all. -/
def meGET (env : Option String) (req : Request) (now : Nat) :
    Response × List DbEvent :=
  match getCurrentUser env req now with
  | none => (jsonErr 401 "Unauthorized", [])
  | some u => (⟨200, RespBody.userClaim u, none⟩, [])

/-! ## Login handler (`src/unnamed/part_000`, `POST /api/auth/login`) -/

/-- `.select(...).eq('email', email).single()`: the unique row with the
given email, if any (no row makes `.single()` report an error, which the
handler folds into the same branch as a missing user). -/
def findUserByEmail (users : List UserRow) (email : String) : Option UserRow :=
  users.find? (fun u => u.email == email)

/-- `POST /api/auth/login`: body parse, user lookup, password check,
token issue and cookie set.  Both the unknown-email and the
wrong-password branches answer 401 `Invalid credentials`. -/
def loginPOST (prim : BcryptPrim) (env : Option String) (now : Nat)
    (users : List UserRow) (body : Option (String × String)) : Response :=
  match body with
  | none => ⟨400, RespBody.invalidInput, none⟩
  | some (email, password) =>
    match findUserByEmail users email with
    | none => jsonErr 401 "Invalid credentials"
    | some user =>
      if verifyPassword prim password user.password_hash then
        let tok := generateToken env ⟨user.id, user.email⟩ now
        ⟨200, RespBody.loginOk user.id user.email user.name tok, some ("token", tok)⟩
      else jsonErr 401 "Invalid credentials"

/-! ## Randomness-threaded forms of the auth module operations

`hashPassword` is the only operation of `lib/auth.ts` that consumes
randomness (bcrypt's fresh salt); the remaining operations, lifted into
the same `SaltM`, leave the salt stream untouched.  These lifts make the
determinism of each operation with respect to the process randomness a
statable property. -/

def verifyPasswordM (prim : BcryptPrim) (password : String) (h : BcryptHash) :
    SaltM Bool :=
  fun salts => (verifyPassword prim password h, salts)

def generateTokenM (env : Option String) (payload : JWTPayload) (now : Nat) :
    SaltM Token :=
  fun salts => (generateToken env payload now, salts)

def verifyTokenM (env : Option String) (t : Token) (now : Nat) :
    SaltM (Option JWTPayload) :=
  fun salts => (verifyToken env t now, salts)

def getCurrentUserM (env : Option String) (req : Request) (now : Nat) :
    SaltM (Option JWTPayload) :=
  fun salts => (getCurrentUser env req now, salts)

def requireAuthM (env : Option String) (req : Request) (now : Nat) :
    SaltM (Except String JWTPayload) :=
  fun salts => (requireAuth env req now, salts)

/-! ## Concrete test fixtures used by witnesses -/

/-- A concrete bcrypt primitive instance for evaluating witnesses. -/
def testPrim : BcryptPrim :=
  ⟨fun p s c => p ++ "|" ++ s ++ "|" ++ toString c⟩

/-- A stored credential row for `alice@example.com` whose hash does not
match the password `wrongpass` under `testPrim`. -/
def aliceRow : UserRow :=
  ⟨1, "alice@example.com", "Alice", ⟨10, "salt", "stored-digest"⟩⟩

/-- A request carrying a valid `token` cookie under the fallback secret. -/
def testAuthedReq : Request :=
  ⟨[("token", Token.signed ⟨1, "a@b"⟩ 0 sevenDaysSeconds (JWT_SECRET none))]⟩

/-- A request with an empty cookie store. -/
def testBareReq : Request := ⟨[]⟩

/-! ## Theorems -/

/-- C1: Token round-trip — decoding a token freshly issued for a claim
`c` under the same configured secret, at any time within the 7-day
validity window, returns exactly `c`:
`verifyToken (generateToken c) = some c`. -/
theorem token_roundtrip (env : Option String) (c : JWTPayload) (t0 t1 : Nat)
    (h : t1 < t0 + sevenDaysSeconds) :
    verifyToken env (generateToken env c t0) t1 = some c := by
  simp [verifyToken, generateToken, jwtSign, jwtVerify, Nat.not_le.mpr h]

theorem token_roundtrip_witness :
    (3 : Nat) < 2 + sevenDaysSeconds ∧
    verifyToken (some "s3cr3t") (generateToken (some "s3cr3t") ⟨7, "u@example.com"⟩ 2) 3 =
      some ⟨7, "u@example.com"⟩ :=
  ⟨by decide, token_roundtrip (some "s3cr3t") ⟨7, "u@example.com"⟩ 2 3 (by decide)⟩

/-- C2: Token decoding is total and absorbs every failure — for every
token, `verifyToken` returns either the embedded claim or `none`; a
malformed string, a bad signature, or an expired token gives `none`, and
every `jwt.verify` exception is absorbed into `none` (conjunct 5: the
result is exactly the `Except.toOption` of the throwing verifier, so no
exception reaches the caller). -/
theorem verifyToken_total_absorbs (env : Option String) (now : Nat) :
    (∀ s, verifyToken env (Token.malformed s) now = none) ∧
    (∀ p iat e sec, sec ≠ JWT_SECRET env →
        verifyToken env (Token.signed p iat e sec) now = none) ∧
    (∀ p iat e sec, e ≤ now →
        verifyToken env (Token.signed p iat e sec) now = none) ∧
    (∀ p iat e sec, verifyToken env (Token.signed p iat e sec) now = none ∨
        verifyToken env (Token.signed p iat e sec) now = some p) ∧
    (∀ t, verifyToken env t now = (jwtVerify t (JWT_SECRET env) now).toOption) := by
  refine ⟨fun s => rfl, fun p iat e sec hsec => ?_, fun p iat e sec he => ?_,
    fun p iat e sec => ?_, fun t => ?_⟩
  · simp [verifyToken, jwtVerify, hsec]
  · by_cases hsec : sec = JWT_SECRET env
    · simp [verifyToken, jwtVerify, hsec, he]
    · simp [verifyToken, jwtVerify, hsec]
  · simp only [verifyToken, jwtVerify]
    split_ifs <;> simp
  · cases h : jwtVerify t (JWT_SECRET env) now <;>
      simp [verifyToken, h, Except.toOption]

theorem verifyToken_total_absorbs_witness :
    verifyToken none (Token.malformed "zzz") 5 = none ∧
    verifyToken none (Token.signed ⟨1, "e@x"⟩ 0 604800 "other-secret") 5 = none ∧
    verifyToken none (Token.signed ⟨1, "e@x"⟩ 0 10 (JWT_SECRET none)) 10 = none :=
  ⟨(verifyToken_total_absorbs none 5).1 "zzz",
   (verifyToken_total_absorbs none 5).2.1 ⟨1, "e@x"⟩ 0 604800 "other-secret" (by decide),
   (verifyToken_total_absorbs none 10).2.2.1 ⟨1, "e@x"⟩ 0 10 (JWT_SECRET none) (by decide)⟩

/-- C6: Credential Hasher round-trip — for every bcrypt primitive, salt
stream and plaintext `p`, `verifyPassword p (hashPassword p)` is true,
and the hash is produced with the fixed cost factor 10. -/
theorem bcrypt_roundtrip (prim : BcryptPrim) (salts : List String) (p : String) :
    verifyPassword prim p (hashPassword prim p salts).1 = true ∧
    (hashPassword prim p salts).1.cost = 10 := by
  cases salts <;> simp [hashPassword, verifyPassword]

/-- C8: Secret configuration — the codec signs and verifies with the one
process-wide secret `JWT_SECRET env`; when the configuration value is
absent the fixed hardcoded development fallback is used for both signing
and verification. -/
theorem secret_configuration :
    JWT_SECRET none = "your-super-secret-jwt-key-change-in-production" ∧
    (∀ env c t, generateToken env c t = jwtSign c (JWT_SECRET env) t) ∧
    (∀ env tok t, verifyToken env tok t = (jwtVerify tok (JWT_SECRET env) t).toOption) ∧
    (∀ c t, generateToken none c t =
        Token.signed c t (t + sevenDaysSeconds)
          "your-super-secret-jwt-key-change-in-production") ∧
    (∀ tok t, verifyToken none tok t =
        (jwtVerify tok "your-super-secret-jwt-key-change-in-production" t).toOption) := by
  refine ⟨rfl, fun env c t => rfl, fun env tok t => ?_, fun c t => rfl, fun tok t => ?_⟩
  · cases h : jwtVerify tok (JWT_SECRET env) t <;>
      simp [verifyToken, h, Except.toOption]
  · cases h : jwtVerify tok "your-super-secret-jwt-key-change-in-production" t <;>
      simp [verifyToken, JWT_SECRET, fallbackSecret, h, Except.toOption]

/-- C3: Authorization Gate raises-iff — `requireAuth` returns a claim
exactly when `getCurrentUser` is non-null; otherwise it signals the one
failure kind `Unauthorized`, which every protected handler translates
into a 401 `Unauthorized` response; and two requests failing
authentication for any reasons (missing, expired, or bad-signature
token) receive identical responses. -/
theorem authorization_gate (env : Option String) (now : Nat) :
    (∀ req c, requireAuth env req now = Except.ok c ↔
        getCurrentUser env req now = some c) ∧
    (∀ req, getCurrentUser env req now = none →
        requireAuth env req now = Except.error "Unauthorized") ∧
    (∀ req qStatus qSearch db body newId ts idStr bodyP,
        getCurrentUser env req now = none →
          projectsGET env req now qStatus qSearch db = (jsonErr 401 "Unauthorized", []) ∧
          projectsPOST env req now body newId ts = (jsonErr 401 "Unauthorized", []) ∧
          projectIdGET env req now idStr db = (jsonErr 401 "Unauthorized", []) ∧
          projectIdPUT env req now idStr bodyP db = (jsonErr 401 "Unauthorized", []) ∧
          projectIdDELETE env req now idStr db = (jsonErr 401 "Unauthorized", []) ∧
          meGET env req now = (jsonErr 401 "Unauthorized", [])) ∧
    (∀ req1 req2 qStatus qSearch db,
        getCurrentUser env req1 now = none → getCurrentUser env req2 now = none →
          projectsGET env req1 now qStatus qSearch db =
            projectsGET env req2 now qStatus qSearch db) := by
  refine ⟨fun req c => ?_, fun req h => ?_,
    fun req qStatus qSearch db body newId ts idStr bodyP h => ?_,
    fun req1 req2 qStatus qSearch db h1 h2 => ?_⟩
  · cases hg : getCurrentUser env req now <;> simp [requireAuth, hg]
  · simp [requireAuth, h]
  · refine ⟨?_, ?_, ?_, ?_, ?_, ?_⟩ <;>
      simp [projectsGET, projectsPOST, projectIdGET, projectIdPUT, projectIdDELETE,
        meGET, requireAuth, h, authCatch, jsonErr]
  · simp [projectsGET, requireAuth, h1, h2]

theorem authorization_gate_witness :
    getCurrentUser none testBareReq 0 = none ∧
    requireAuth none testBareReq 0 = Except.error "Unauthorized" ∧
    projectsGET none testBareReq 0 none none [] = (jsonErr 401 "Unauthorized", []) ∧
    meGET none testBareReq 0 = (jsonErr 401 "Unauthorized", []) :=
  ⟨rfl, (authorization_gate none 0).2.1 testBareReq rfl,
   ((authorization_gate none 0).2.2.1 testBareReq none none [] none 0 0 "x" none rfl).1,
   ((authorization_gate none 0).2.2.1 testBareReq none none [] none 0 0 "x" none rfl).2.2.2.2.2⟩

/-- C4: Request Authenticator — with no `token` cookie `getCurrentUser`
returns null immediately; with a valid unexpired token signed with the
configured secret it returns the embedded claim; and the whoami handler
built solely from it performs no datastore access (empty event trace). -/
theorem request_authenticator (env : Option String) (now : Nat) :
    (∀ req, cookieGet req "token" = none → getCurrentUser env req now = none) ∧
    (∀ req c iat e,
        cookieGet req "token" = some (Token.signed c iat e (JWT_SECRET env)) →
        now < e → getCurrentUser env req now = some c) ∧
    (∀ req, (meGET env req now).2 = ([] : List DbEvent)) := by
  refine ⟨fun req h => ?_, fun req c iat e h hlt => ?_, fun req => ?_⟩
  · simp [getCurrentUser, h]
  · simp [getCurrentUser, h, verifyToken, jwtVerify, Nat.not_le.mpr hlt]
  · cases hg : getCurrentUser env req now <;> simp [meGET, hg]

theorem request_authenticator_witness :
    cookieGet testBareReq "token" = none ∧
    getCurrentUser none testBareReq 3 = none ∧
    cookieGet testAuthedReq "token" =
      some (Token.signed ⟨1, "a@b"⟩ 0 sevenDaysSeconds (JWT_SECRET none)) ∧
    (5 : Nat) < sevenDaysSeconds ∧
    getCurrentUser none testAuthedReq 5 = some ⟨1, "a@b"⟩ :=
  ⟨rfl, (request_authenticator none 3).1 testBareReq rfl, rfl, by decide,
   (request_authenticator none 5).2.1 testAuthedReq ⟨1, "a@b"⟩ 0 sevenDaysSeconds rfl
     (by decide)⟩

/-- C5: Gate-before-datastore ordering — whenever `requireAuth` signals
`Unauthorized`, every protected operation (list, create, get-by-id,
update, delete project, and fetch current user) aborts with an empty
datastore event trace: no read or write happened. -/
theorem gate_before_datastore (env : Option String) (now : Nat) (req : Request)
    (qStatus qSearch : Option String) (db : List Project)
    (body : Option ProjectInput) (newId : ℚ) (ts : Nat) (idStr : String)
    (bodyP : Option ProjectInput)
    (h : requireAuth env req now = Except.error "Unauthorized") :
    (projectsGET env req now qStatus qSearch db).2 = [] ∧
    (projectsPOST env req now body newId ts).2 = [] ∧
    (projectIdGET env req now idStr db).2 = [] ∧
    (projectIdPUT env req now idStr bodyP db).2 = [] ∧
    (projectIdDELETE env req now idStr db).2 = [] ∧
    (meGET env req now).2 = [] := by
  have hg : getCurrentUser env req now = none := by
    cases hg' : getCurrentUser env req now with
    | none => rfl
    | some u => simp [requireAuth, hg'] at h
  refine ⟨?_, ?_, ?_, ?_, ?_, ?_⟩ <;>
    simp [projectsGET, projectsPOST, projectIdGET, projectIdPUT, projectIdDELETE,
      meGET, requireAuth, hg]

theorem gate_before_datastore_witness :
    requireAuth none testBareReq 0 = Except.error "Unauthorized" ∧
    (projectsGET none testBareReq 0 none none []).2 = [] ∧
    (projectsPOST none testBareReq 0 none 0 0).2 = [] ∧
    (projectIdGET none testBareReq 0 "1" []).2 = [] ∧
    (projectIdPUT none testBareReq 0 "1" none []).2 = [] ∧
    (projectIdDELETE none testBareReq 0 "1" []).2 = [] ∧
    (meGET none testBareReq 0).2 = [] := by
  refine ⟨rfl, ?_⟩
  exact gate_before_datastore none 0 testBareReq none none [] none 0 0 "1" none rfl

/-- C7: Login indistinguishability — a login run where the email exists
but the password fails verification and a run where the email does not
exist produce identical client-visible responses, namely HTTP 401 with
the generic `Invalid credentials` body and no cookie set. -/
theorem login_indistinguishable (prim : BcryptPrim) (env : Option String)
    (now1 now2 : Nat) (users1 users2 : List UserRow)
    (email1 pw1 email2 pw2 : String) (u : UserRow)
    (h1 : findUserByEmail users1 email1 = some u)
    (h2 : verifyPassword prim pw1 u.password_hash = false)
    (h3 : findUserByEmail users2 email2 = none) :
    loginPOST prim env now1 users1 (some (email1, pw1)) =
      loginPOST prim env now2 users2 (some (email2, pw2)) ∧
    loginPOST prim env now1 users1 (some (email1, pw1)) =
      jsonErr 401 "Invalid credentials" := by
  simp [loginPOST, h1, h2, h3]

theorem login_indistinguishable_witness :
    findUserByEmail [aliceRow] "alice@example.com" = some aliceRow ∧
    verifyPassword testPrim "wrongpass" aliceRow.password_hash = false ∧
    findUserByEmail [aliceRow] "bob@example.com" = none ∧
    loginPOST testPrim none 0 [aliceRow] (some ("alice@example.com", "wrongpass")) =
      loginPOST testPrim none 0 [aliceRow] (some ("bob@example.com", "whatever")) ∧
    loginPOST testPrim none 0 [aliceRow] (some ("alice@example.com", "wrongpass")) =
      jsonErr 401 "Invalid credentials" := by
  refine ⟨by decide, by decide, by decide, ?_, ?_⟩
  · exact (login_indistinguishable testPrim none 0 0 [aliceRow] [aliceRow]
      "alice@example.com" "wrongpass" "bob@example.com" "whatever" aliceRow
      (by decide) (by decide) (by decide)).1
  · exact (login_indistinguishable testPrim none 0 0 [aliceRow] [aliceRow]
      "alice@example.com" "wrongpass" "bob@example.com" "whatever" aliceRow
      (by decide) (by decide) (by decide)).2

/-- C9 counterexample: the claim "every operation of the authentication
subsystem is deterministic" fails on `hashPassword`, which draws a fresh
random salt from the process randomness: two calls with the identical
plaintext `"pw"` (and identical secret and time) under different salt
draws produce different outputs. -/
theorem auth_determinism_cex :
    (hashPassword testPrim "pw" ["saltA"]).1 ≠ (hashPassword testPrim "pw" ["saltB"]).1 := by
  decide

/-- C9 (amended): every operation of the subsystem except `hashPassword`
(`verifyPassword`, `generateToken`, `verifyToken`, `getCurrentUser`,
`requireAuth`) is deterministic — its output is independent of the
process randomness stream; `hashPassword` incorporates a freshly drawn
salt, so two calls with the same plaintext and distinct salt draws yield
different outputs, yet both verify true against the plaintext. -/
theorem auth_ops_determinism (prim : BcryptPrim) (env : Option String)
    (gs1 gs2 : List String) (pw p : String) (h : BcryptHash) (c : JWTPayload)
    (tok : Token) (req : Request) (now : Nat) (s1 s2 : String) (hne : s1 ≠ s2) :
    (verifyPasswordM prim pw h gs1).1 = (verifyPasswordM prim pw h gs2).1 ∧
    (generateTokenM env c now gs1).1 = (generateTokenM env c now gs2).1 ∧
    (verifyTokenM env tok now gs1).1 = (verifyTokenM env tok now gs2).1 ∧
    (getCurrentUserM env req now gs1).1 = (getCurrentUserM env req now gs2).1 ∧
    (requireAuthM env req now gs1).1 = (requireAuthM env req now gs2).1 ∧
    (hashPassword prim p (s1 :: gs1)).1 ≠ (hashPassword prim p (s2 :: gs2)).1 ∧
    verifyPassword prim p (hashPassword prim p (s1 :: gs1)).1 = true ∧
    verifyPassword prim p (hashPassword prim p (s2 :: gs2)).1 = true := by
  refine ⟨rfl, rfl, rfl, rfl, rfl, ?_, ?_, ?_⟩
  · intro heq
    exact hne (congrArg BcryptHash.salt heq)
  · simp [hashPassword, verifyPassword]
  · simp [hashPassword, verifyPassword]

theorem auth_ops_determinism_witness :
    ("A" : String) ≠ "B" ∧
    (hashPassword testPrim "pw" ["A"]).1 ≠ (hashPassword testPrim "pw" ["B"]).1 ∧
    verifyPassword testPrim "pw" (hashPassword testPrim "pw" ["A"]).1 = true :=
  ⟨by decide,
   (auth_ops_determinism testPrim none [] [] "x" "pw" ⟨10, "s", "d"⟩ ⟨1, "e"⟩
      (Token.malformed "m") testBareReq 0 "A" "B" (by decide)).2.2.2.2.2.1,
   (auth_ops_determinism testPrim none [] [] "x" "pw" ⟨10, "s", "d"⟩ ⟨1, "e"⟩
      (Token.malformed "m") testBareReq 0 "A" "B" (by decide)).2.2.2.2.2.2.1⟩

/-- C10: for every authenticated GET, PUT, or DELETE request to
`/api/projects/[id]` whose id path parameter does not parse as a number
(`Number(id)` is NaN, as for every UUID-form id), the handler returns
HTTP 400 with error `Invalid project id` and performs no datastore
access (empty event trace). -/
theorem invalid_project_id (env : Option String) (now : Nat) (req : Request)
    (u : JWTPayload) (idStr : String) (db : List Project)
    (bodyP : Option ProjectInput)
    (hauth : getCurrentUser env req now = some u)
    (hnan : jsNumber idStr = JsNum.nan) :
    projectIdGET env req now idStr db = (jsonErr 400 "Invalid project id", []) ∧
    projectIdPUT env req now idStr bodyP db = (jsonErr 400 "Invalid project id", []) ∧
    projectIdDELETE env req now idStr db = (jsonErr 400 "Invalid project id", []) := by
  refine ⟨?_, ?_, ?_⟩ <;>
    simp [projectIdGET, projectIdPUT, projectIdDELETE, requireAuth, hauth, hnan]

theorem invalid_project_id_witness :
    getCurrentUser none testAuthedReq 5 = some ⟨1, "a@b"⟩ ∧
    jsNumber "550e8400-e29b-41d4-a716-446655440000" = JsNum.nan ∧
    projectIdGET none testAuthedReq 5 "550e8400-e29b-41d4-a716-446655440000" [] =
      (jsonErr 400 "Invalid project id", []) ∧
    projectIdPUT none testAuthedReq 5 "550e8400-e29b-41d4-a716-446655440000" none [] =
      (jsonErr 400 "Invalid project id", []) ∧
    projectIdDELETE none testAuthedReq 5 "550e8400-e29b-41d4-a716-446655440000" [] =
      (jsonErr 400 "Invalid project id", []) := by
  refine ⟨by decide, by decide, ?_⟩
  exact invalid_project_id none 5 testAuthedReq ⟨1, "a@b"⟩
    "550e8400-e29b-41d4-a716-446655440000" [] none (by decide) (by decide)
